import Mathlib

/-!
Verification of the AD_Project_Crawler repository (AD_crawler.py, list_generator.py).
Each Python function relevant to the frozen claims is shallowly embedded as an
executable Lean definition; side-effecting steps (browser fetches, per-item image
downloads, directory creation) are passed in as explicit boolean/oracle inputs,
everything else is translated from the source line by line.
-/

set_option maxHeartbeats 1000000

/-! ## Generic string helpers (Python `in`, `str.split`, `str.strip`) -/

/-- Bool test: `pat` is a prefix of `cs` (character lists). -/
def charsStartWith : List Char → List Char → Bool
  | [], _ => true
  | _ :: _, [] => false
  | p :: ps, c :: cs => p == c && charsStartWith ps cs

/-- Bool test: `pat` occurs contiguously somewhere in `hay` (Python `pat in hay`). -/
def charsContain (pat : List Char) : List Char → Bool
  | [] => pat.isEmpty
  | c :: rest => charsStartWith pat (c :: rest) || charsContain pat rest

/-- Python `pat in s` for strings. -/
def strContains (s pat : String) : Bool :=
  charsContain pat.toList s.toList

/-- Case-insensitive substring test (pandas `str.contains(..., case=False)`
with a literal pattern). -/
def strContainsCI (s pat : String) : Bool :=
  charsContain (pat.toList.map Char.toLower) (s.toList.map Char.toLower)

/-- Python `s.split(sep)` for a one-character separator, on character lists:
splitting the empty string gives one empty piece, and separators at the ends
produce empty pieces, exactly as in Python. -/
def splitCharList (sep : Char) : List Char → List (List Char)
  | [] => [[]]
  | c :: rest =>
    if c == sep then [] :: splitCharList sep rest
    else
      match splitCharList sep rest with
      | [] => [[c]]
      | g :: gs => (c :: g) :: gs

/-- Python `s.split(sep)` for strings with a one-character separator. -/
def pySplitChar (sep : Char) (s : String) : List String :=
  (splitCharList sep s.toList).map List.asString

/-- Worker for whitespace splitting: `acc` holds the current word reversed. -/
def splitWSGo : List Char → List Char → List String
  | acc, [] => if acc.isEmpty then [] else [acc.reverse.asString]
  | acc, c :: rest =>
    if c.isWhitespace then
      if acc.isEmpty then splitWSGo [] rest
      else acc.reverse.asString :: splitWSGo [] rest
    else splitWSGo (c :: acc) rest

/-- Python `s.split()` with no argument: split on whitespace runs, no empty pieces. -/
def pySplitWS (s : String) : List String :=
  splitWSGo [] s.toList

/-- Python `s.lower()` (ASCII case mapping, which is all the code relies on). -/
def strToLower (s : String) : String :=
  (s.toList.map Char.toLower).asString

/-- Python `s.startswith(pre)`. -/
def strStartsWith (s pre : String) : Bool :=
  charsStartWith pre.toList s.toList

/-- Strip a given character from both ends of a character list (Python `str.strip(c)`). -/
def stripChar (c : Char) (s : List Char) : List Char :=
  ((s.dropWhile (fun x => x == c)).reverse.dropWhile (fun x => x == c)).reverse

/-! ## Resolver: target-image disambiguation inside `download_gallery_image`
(AD_crawler.py lines 315-343). An entry of the embedded `data-images` JSON array;
during disambiguation the code only ever reads its optional `link` field, so the
embedding keeps exactly that field. -/

structure ImgInfo where
  link : Option String
deriving DecidableEq

/-- Python `'link' in img_info and tok in img_info['link']`. -/
def linkHasToken (tok : String) (ii : ImgInfo) : Bool :=
  match ii.link with
  | some l => strContains l tok
  | none => false

/-- The disambiguation block of `download_gallery_image`: `fragment` is
`urlparse(page_url).fragment` (empty string when the URL has no fragment),
`dataId` is the container `data-id` attribute (None when absent), `payload`
is the parsed `data-images` list. Returns the selected entry. -/
def resolve_target (fragment : String) (dataId : Option String) (payload : List ImgInfo) :
    Option ImgInfo :=
  let fromFrag :=
    if fragment = "" then none
    else payload.find? (linkHasToken ((pySplitChar '-' fragment).headD ""))
  match fromFrag with
  | some t => some t
  | none =>
    let d := dataId.getD ""
    if d = "" then payload.head?
    else
      match payload.find? (linkHasToken d) with
      | some t => some t
      | none => payload.head?

/-! ## Detail Extractor: `purge_description` (AD_crawler.py lines 61-75) -/

/-- First boilerplate phrase filtered by `purge_description`. -/
def boilerFollow : String := "You\x27ll now receive updates based on what you follow!"

/-- Second boilerplate phrase filtered by `purge_description`. -/
def boilerSignup : String := "If you want to make the best of your experience on our site, sign-up."

/-- Remove duplicates keeping the first occurrence (the `seen`-set comprehension
at the end of `purge_description`). -/
def dedupKeepFirst : List String → List String → List String
  | _, [] => []
  | seen, x :: rest =>
    if x ∈ seen then dedupKeepFirst seen rest
    else x :: dedupKeepFirst (x :: seen) rest

/-- `purge_description`: drops lines with at most 3 words, two fixed boilerplate
substrings, lines starting with "Check the", lines containing "Save this
picture!", then deduplicates preserving first-seen order. -/
def purge_description (description_list : List String) : List String :=
  let l1 := description_list.filter (fun x => 3 < (pySplitWS x).length)
  let l2 := l1.filter (fun x => !(strContains x boilerFollow))
  let l3 := l2.filter (fun x => !(strContains x boilerSignup))
  let l4 := l3.filter (fun x => !(strStartsWith x "Check the"))
  let l5 := l4.filter (fun x => !(strContains x "Save this picture!"))
  dedupKeepFirst [] l5

/-! ## Ledger: the projects CSV (`update_csv_status`, AD_crawler.py lines 505-553,
and the `__main__` processing loop, lines 688-789). A `Ledger` is the parsed CSV:
header row plus data rows. -/

structure Ledger where
  header : List String
  rows : List (List String)
deriving DecidableEq

/-- Pad a row on the right with empty strings up to length `n`
(the `row.extend([..] * (len(header) - len(row)))` branch). -/
def padTo (n : Nat) (row : List String) : List String :=
  row ++ List.replicate (n - row.length) ""

/-- Write `status` into the status cell of one row, zero-padding short rows
to the header length first (lines 524-532). -/
def setRowStatus (hdrLen si : Nat) (status : String) (row : List String) : List String :=
  if si < row.length then row.set si status
  else (padTo hdrLen row).set si status

/-- Per-row body of the `update_csv_status` read loop (lines 520-533):
a non-empty row whose first cell equals `code` gets its status cell set. -/
def rewriteRow (hdrLen si : Nat) (code status : String) (row : List String) : List String :=
  match row with
  | [] => []
  | c :: rest => if c = code then setRowStatus hdrLen si status (c :: rest) else c :: rest

/-- `update_csv_status(csv_file, project_code, status)` as a pure table
transformation. When the header has no `status` column the Python function
prints an error and returns without touching the file, so the table is
returned unchanged (no exception is raised). -/
def update_csv_status (L : Ledger) (code status : String) : Ledger :=
  match L.header.findIdx? (fun h => h == "status") with
  | none => L
  | some si => ⟨L.header, L.rows.map (rewriteRow L.header.length si code status)⟩

/-- The skip list built at lines 730-732: four statuses always, plus
`downloaded` unless text-only mode is active. -/
def skip_statuses (text_only : Bool) : List String :=
  if text_only then ["error", "incomplete", "duplicate", "delete"]
  else ["error", "incomplete", "duplicate", "delete", "downloaded"]

/-- The `for i, row in enumerate(rows)` loop of `__main__` (lines 716-789).
`snap` is the in-memory snapshot of the rows (read once at startup), `i` the
running row index, `L` the evolving on-disk ledger. `outcome i` abstracts the
final status string computed for row `i` by the two scraping stages; in debug
mode the CSV is not updated and the loop stops after the first eligible row. -/
def runRows (debug text_only : Bool) (si : Nat) (outcome : Nat → String) :
    Nat → List (List String) → Ledger → Ledger
  | _, [], L => L
  | i, row :: rest, L =>
    match row.head? with
    | none => runRows debug text_only si outcome (i + 1) rest L
    | some code =>
      if strToLower (row.getD si "") ∈ skip_statuses text_only then
        runRows debug text_only si outcome (i + 1) rest L
      else if debug then L
      else runRows debug text_only si outcome (i + 1) rest
        (update_csv_status L code (outcome i))

/-- The orchestrator run over a ledger: the startup header check of lines
693-701 aborts the whole run (`exit()`) when the header lacks a `status`
column, modelled by returning `none`; otherwise the row loop runs. -/
def runOrchestrator (debug text_only : Bool) (outcome : Nat → String) (L : Ledger) :
    Option Ledger :=
  match L.header.findIdx? (fun h => h == "status") with
  | none => none
  | some si => some (runRows debug text_only si outcome 0 L.rows L)

/-- Concrete two-row ledger whose rows share the project code `p1`
(first column); used to exercise the run on duplicate project ids. -/
def dupIdLedger : Ledger :=
  ⟨["project_id", "status"], [["p1", ""], ["p1", "downloaded"]]⟩

/-! ## Ledger commit as a file-state trace (`update_csv_status` write phase,
lines 541-553). The observable file system during one commit: the main CSV
file content and the optional `.tmp` file. -/

structure LedgerFS where
  mainFile : Ledger
  tempFile : Option (List (List String))
deriving DecidableEq

/-- The row list physically written to the temp file: header first, then rows
(`rows.append(header)` before the loop, then `writer.writerows(rows)`). -/
def ledgerFileContent (L : Ledger) : List (List String) :=
  L.header :: L.rows

/-- The sequence of observable file states during one `update_csv_status` call:
initial state; temp file written (full new table, or arbitrary `junk` when the
write fails midway); then either the atomic `os.replace` installing the new
table and consuming the temp file, or the error path that removes the temp
file and leaves the main file untouched. A missing `status` column returns
before any write. -/
def commit_states (fs : LedgerFS) (code status : String) (writeOk replaceOk : Bool)
    (junk : List (List String)) : List LedgerFS :=
  match fs.mainFile.header.findIdx? (fun h => h == "status") with
  | none => [fs]
  | some _ =>
    let newL := update_csv_status fs.mainFile code status
    if writeOk then
      if replaceOk then
        [fs, ⟨fs.mainFile, some (ledgerFileContent newL)⟩, ⟨newL, none⟩]
      else
        [fs, ⟨fs.mainFile, some (ledgerFileContent newL)⟩, ⟨fs.mainFile, none⟩]
    else
      [fs, ⟨fs.mainFile, some junk⟩, ⟨fs.mainFile, none⟩]

/-! ## Per-row status computation in the orchestrator (lines 743-779) -/

/-- Result of `project_scraper`: the function returns the string
`"downloaded"` on success and `"error"` on any exception. -/
inductive ScraperStatus
  | downloaded
  | error
deriving DecidableEq

/-- Steps 2 and 3 of the per-row processing (lines 746-769): compute
`downloader_overall_success`, whether `process_project_images` was invoked,
and the final status string committed for the row. Returns
`(final_status, image stage invoked)`. `imagesResult` is the boolean that
`process_project_images` would return for this row. -/
def rowOutcome (text_only : Bool) (scraper : ScraperStatus) (imagesResult : Bool) :
    String × Bool :=
  let dl : Bool × Bool :=
    match scraper, text_only with
    | .downloaded, true => (true, false)
    | .downloaded, false => (imagesResult, true)
    | .error, _ => (false, false)
  let final :=
    match scraper with
    | .downloaded => if dl.1 then "downloaded" else "incomplete"
    | .error => "error"
  (final, dl.2)

/-! ## Gallery Harvester: `process_project_images` (AD_crawler.py lines 387-501).
The browser, network and file system are passed in as an explicit environment:
`mkdirOk` is whether `base_download_folder.mkdir` succeeds, `scrapeOk` and
`scrapeItems` are the pair returned by `scrape_gallery_thumbnails`, and
`downloadOk i` is whether the call to `download_gallery_image` for the item at
index `i` returns success (with a filename). -/

structure GalleryItem where
  href : Option String
  title : String
deriving DecidableEq

structure ImageEnv where
  mkdirOk : Bool
  scrapeOk : Bool
  scrapeItems : List GalleryItem
  downloadOk : Nat → Bool

/-- Python `path.strip('/').split('/')` with the falsy filter, as used by the
project-id extraction in both `project_scraper` and `process_project_images`. -/
def pathParts (path : String) : List String :=
  (pySplitChar '/' (stripChar '/' path.toList).asString).filter (fun p => p ≠ "")

/-- Project-id extraction from the URL path (lines 405-411): the first path
segment consisting only of digits (Python `part.isdigit()`). -/
def extract_project_id (urlPath : String) : Option String :=
  (pathParts urlPath).find? (fun part => !part.toList.isEmpty && part.toList.all Char.isDigit)

/-- The download loop of lines 451-482: enumerate all items (the index grows
even for skipped items), skip items whose `href` is falsy, count successful
downloads, and latch `overall_image_success` once any download succeeds.
Returns `(overall_image_success, successful_downloads)`. -/
def downloadLoop (env : ImageEnv) : Nat → List GalleryItem → Bool → Nat → Bool × Nat
  | _, [], overall, succ => (overall, succ)
  | i, item :: rest, overall, succ =>
    if item.href.getD "" = "" then downloadLoop env (i + 1) rest overall succ
    else if env.downloadOk i then downloadLoop env (i + 1) rest true (succ + 1)
    else downloadLoop env (i + 1) rest overall succ

/-- Whether some item starting at index `i` has a truthy `href` and downloads
successfully (specification form of the success latch in the loop). -/
def anySuccess (env : ImageEnv) : Nat → List GalleryItem → Bool
  | _, [] => false
  | i, item :: rest =>
    (item.href.getD "" != "" && env.downloadOk i) || anySuccess env (i + 1) rest

/-- Observable outcome of `process_project_images`: the returned boolean flag
and whether `scrape_gallery_thumbnails` (thumbnail enumeration) was invoked. -/
structure ImageRunResult where
  overall : Bool
  scrapeInvoked : Bool
deriving DecidableEq

/-- `process_project_images(driver, project_url)` with `urlPath` the path
component of `project_url` (what `urlparse(project_url).path` yields). Early
returns: no digit path segment (lines 416-418), directory creation failure
(lines 428-432) — both before any thumbnail scraping; then thumbnail-scrape
failure, the empty-gallery success case, and the download loop. -/
def process_project_images (env : ImageEnv) (urlPath : String) : ImageRunResult :=
  match extract_project_id urlPath with
  | none => ⟨false, false⟩
  | some _ =>
    if !env.mkdirOk then ⟨false, false⟩
    else if !env.scrapeOk then ⟨false, true⟩
    else if env.scrapeItems.isEmpty then ⟨true, true⟩
    else ⟨(downloadLoop env 0 env.scrapeItems false 0).1, true⟩

/-- Environment in which the thumbnail scrape would succeed with one
downloadable item; used with a URL path carrying no numeric segment. -/
def noIdEnv : ImageEnv :=
  ⟨true, true, [⟨some "https://example.com/photo/1-view", "view"⟩], fun _ => true⟩

/-! ## Discovery Aggregator: `list_generator.py` -/

/-- Python word character for `re` `\b` boundaries on ASCII text:
letters, digits, underscore. -/
def isWordChar (c : Char) : Bool :=
  c.isAlphanum || c == '_'

/-- `w` occurs at the head of `cs` with a word boundary after it. -/
def wholeWordAt (w cs : List Char) : Bool :=
  charsStartWith w cs &&
    (match cs.drop w.length with
     | [] => true
     | c :: _ => !isWordChar c)

/-- Scan for a whole-word occurrence of `w`: a match position must follow a
non-word character (or the string start), and end before one (or the end). -/
def hasWholeWordAux (w : List Char) : Bool → List Char → Bool
  | _, [] => false
  | prevWord, c :: rest =>
    (!prevWord && wholeWordAt w (c :: rest)) || hasWholeWordAux w (isWordChar c) rest

/-- Case-insensitive whole-word containment: the regex
`\b(re.escape(w))\b` with `case=False` for a literal word `w` that starts and
ends with word characters (true of every word in `research_words`). -/
def hasWholeWord (s w : String) : Bool :=
  hasWholeWordAux (w.toList.map Char.toLower) false (s.toList.map Char.toLower)

/-- Filter 1 of `list_generator.main` (lines 194-196): the art pattern
`-art-museum|-art-gallery|-contemporary-art`, case-insensitive. -/
def art_filter (link : String) : Bool :=
  strContainsCI link "-art-museum" || strContainsCI link "-art-gallery" ||
    strContainsCI link "-contemporary-art"

/-- The fixed research/lab/institute word list (lines 202-212). -/
def research_words : List String :=
  ["laboratory", "institute", "foundation", "skylab", "research", "biocenter",
   "bioengineering", "tech-center", "school"]

/-- Filter 2 pattern match (line 215): whole-word, case-insensitive,
any of the research words. -/
def research_filter (link : String) : Bool :=
  research_words.any (fun w => hasWholeWord link w)

/-- One row of the discovery table (`project_id, link, keyword, status`). -/
structure Project where
  project_id : String
  link : String
  keyword : String
  status : String
deriving DecidableEq

/-- Rule 1 applied to one row, also reporting whether a `delete` mark was
assigned (`projects.loc[art_mask, 'status'] = 'delete'`, line 196). -/
def applyArtRule (p : Project) : Project × Nat :=
  if art_filter p.link then ({ p with status := "delete" }, 1) else (p, 0)

/-- Rule 2 applied to one row, also reporting whether a `delete` mark was
assigned; the mask excludes rows already marked `delete` (line 218). -/
def applyResearchRule (p : Project) : Project × Nat :=
  if research_filter p.link && p.status != "delete" then
    ({ p with status := "delete" }, 1)
  else (p, 0)

/-- Both classification passes on one row, with the total number of `delete`
assignments made to it. Pandas applies rule 1 to the whole column and then
rule 2; both are row-independent, so the composition per row is identical. -/
def classifyRow (p : Project) : Project × Nat :=
  let a := applyArtRule p
  let r := applyResearchRule a.1
  (r.1, a.2 + r.2)

/-- The two table-level classification passes of `main` (lines 190-220). -/
def classifyTable (rows : List Project) : List Project :=
  (rows.map (fun p => (applyArtRule p).1)).map (fun p => (applyResearchRule p).1)

/-- Python `re.search(r'/(\d+)/', link)`: the first slash followed by a
non-empty digit run followed by a slash; returns the digit run. -/
def findIdMatch : List Char → Option String
  | [] => none
  | c :: rest =>
    if c == '/' then
      let ds := rest.takeWhile Char.isDigit
      if !ds.isEmpty && (rest.drop ds.length).head? == some '/' then
        some ds.asString
      else findIdMatch rest
    else findIdMatch rest

/-- The row batch built by one `crawl_task` worker from its scraped result
links (lines 119-147): links without a parsable numeric id are dropped with a
warning, each surviving link becomes a row with status `''`. -/
def crawl_task_rows (links : List String) (kw : String) : List Project :=
  links.filterMap (fun l => (findIdMatch l.toList).map (fun pid => Project.mk pid l kw ""))

/-- The merged thread-safe table after all workers: the concatenation of the
per-worker batches (each batch appended atomically under the lock). -/
def mergedRows (batches : List (List String × String)) : List Project :=
  (batches.map (fun b => crawl_task_rows b.1 b.2)).flatten

/-- `drop_duplicates('project_id', keep='first')` (line 187). -/
def dedupGo : List String → List Project → List Project
  | _, [] => []
  | seen, p :: rest =>
    if p.project_id ∈ seen then dedupGo seen rest
    else p :: dedupGo (p.project_id :: seen) rest

/-- Deduplicate by `project_id`, keeping the first-seen row. -/
def dedupByID (rows : List Project) : List Project :=
  dedupGo [] rows

/-- `list_generator.main` after the workers have produced `rows`: an empty
merged table returns `None` (no CSV written); otherwise deduplicate and run
the two classification passes (lines 180-222). -/
def discoverMain (rows : List Project) : Option (List Project) :=
  if rows.isEmpty then none
  else some (classifyTable (dedupByID rows))

/-! ## Helper lemmas -/

/-- Mapping a function that fixes every member of a list is the identity. -/
theorem map_id_of_mem {α : Type} (f : α → α) :
    ∀ l : List α, (∀ a ∈ l, f a = a) → l.map f = l := by
  intro l h
  induction l with
  | nil => rfl
  | cons a t ih =>
    simp only [List.map_cons]
    rw [h a (List.mem_cons_self a t), ih (fun b hb => h b (List.mem_cons_of_mem a hb))]

/-! ## Claim theorems -/

/-- C1: the Resolver disambiguation is three-tiered with first match winning.
For every non-empty payload: (tier 1) a non-empty URL fragment selects the
first entry whose link contains the fragment segment before the first dash;
(tier 2) only when tier 1 yields nothing and a non-empty default-id attribute
exists, the first entry whose link contains that attribute value is selected;
(tier 3) otherwise the first payload entry is selected. The two concrete spec
examples are included: payload `[/a-100, /b-200]` with fragment `200-foo`
selects `/b-200` regardless of the default-id, and no fragment with no
default-id selects entry index 0. -/
theorem C1_resolver_tiers (fragment : String) (dataId : Option String)
    (payload : List ImgInfo) (hne : payload ≠ []) :
    (∀ t, fragment ≠ "" →
        payload.find? (linkHasToken ((pySplitChar '-' fragment).headD "")) = some t →
        resolve_target fragment dataId payload = some t)
    ∧ ((fragment = "" ∨
          payload.find? (linkHasToken ((pySplitChar '-' fragment).headD "")) = none) →
        ∀ d t, dataId = some d → d ≠ "" → payload.find? (linkHasToken d) = some t →
          resolve_target fragment dataId payload = some t)
    ∧ ((fragment = "" ∨
          payload.find? (linkHasToken ((pySplitChar '-' fragment).headD "")) = none) →
        (dataId.getD "" = "" ∨ payload.find? (linkHasToken (dataId.getD "")) = none) →
        resolve_target fragment dataId payload = some (payload.head hne))
    ∧ resolve_target "200-foo" dataId [⟨some "/a-100"⟩, ⟨some "/b-200"⟩] =
        some ⟨some "/b-200"⟩
    ∧ resolve_target "" none [⟨some "/a-100"⟩, ⟨some "/b-200"⟩] = some ⟨some "/a-100"⟩ := by
  refine ⟨?_, ?_, ?_, ?_, ?_⟩
  · intro t hf hfind
    simp only [resolve_target, if_neg hf, hfind]
  · intro hfail d t hd hdne hfind
    subst hd
    have hfrag : (if fragment = "" then none
        else payload.find? (linkHasToken ((pySplitChar '-' fragment).headD ""))) =
          (none : Option ImgInfo) := by
      rcases hfail with hf | hff
      · rw [if_pos hf]
      · by_cases hf : fragment = ""
        · rw [if_pos hf]
        · rw [if_neg hf]; exact hff
    simp only [resolve_target, hfrag, Option.getD_some, if_neg hdne, hfind]
  · intro hfail hdfail
    have hfrag : (if fragment = "" then none
        else payload.find? (linkHasToken ((pySplitChar '-' fragment).headD ""))) =
          (none : Option ImgInfo) := by
      rcases hfail with hf | hff
      · rw [if_pos hf]
      · by_cases hf : fragment = ""
        · rw [if_pos hf]
        · rw [if_neg hf]; exact hff
    have hhead : payload.head? = some (payload.head hne) := List.head?_eq_head hne
    rcases hdfail with hd | hdf
    · simp only [resolve_target, hfrag]
      rw [if_pos hd]
      exact hhead
    · by_cases hd : dataId.getD "" = ""
      · simp only [resolve_target, hfrag]
        rw [if_pos hd]
        exact hhead
      · simp only [resolve_target, hfrag]
        rw [if_neg hd, hdf]
        exact hhead
  · rfl
  · rfl

/-- Witness for C1 at the concrete spec example, with a default-id pointing at
the other entry. -/
theorem C1_resolver_tiers_witness :
    resolve_target "200-foo" (some "100") [⟨some "/a-100"⟩, ⟨some "/b-200"⟩] =
      some ⟨some "/b-200"⟩ :=
  (C1_resolver_tiers "200-foo" (some "100") [⟨some "/a-100"⟩, ⟨some "/b-200"⟩]
    (by decide)).2.2.2.1

/-- C2: the per-eligible-row status machine of the orchestrator in normal mode
(`text_only = false`): a failed detail scrape commits `error` and never invokes
the image stage; a successful detail scrape commits `downloaded` when the image
stage flag is true and `incomplete` when it is false; the match is exhaustive,
so no other status is ever produced for a processed row. -/
theorem C2_status_machine (s : ScraperStatus) (b : Bool) :
    rowOutcome false s b =
      (match s, b with
       | .error, _ => ("error", false)
       | .downloaded, true => ("downloaded", true)
       | .downloaded, false => ("incomplete", true)) := by
  cases s <;> cases b <;> rfl

/-- C4 counterexample: on the spec example input, `purge_description` returns
the empty list, not `["ok"]` — the ≤3-word filter drops `"ok"` itself (1 word)
along with every other line, so the claimed output `["ok"]` is wrong. -/
theorem C4_counterexample :
    purge_description ["ok", "too short", "Check the gallery", "Save this picture!", "ok"] = []
    ∧ (([] : List String) ≠ ["ok"]) := by
  exact ⟨by decide, by decide⟩

/-- C4 amended: the cleaning filter on the spec example input returns exactly
`[]`: every one of the five lines has at most 3 words, so the word-count filter
already removes them all (the boilerplate, prefix, and deduplication rules then
have nothing left to act on). -/
theorem C4_cleaning_amended :
    purge_description ["ok", "too short", "Check the gallery", "Save this picture!", "ok"] = []
    ∧ (["ok", "too short", "Check the gallery", "Save this picture!", "ok"].all
        (fun x => decide ((pySplitWS x).length ≤ 3))) = true := by
  exact ⟨by decide, by decide⟩

/-- C7: committing a status for a project code that heads no ledger row leaves
the table exactly unchanged and signals no error (the function returns
normally with the identical table). -/
theorem C7_absent_code_noop (L : Ledger) (code status : String)
    (h : ∀ r ∈ L.rows, r.head? ≠ some code) :
    update_csv_status L code status = L := by
  obtain ⟨hdr, rows⟩ := L
  unfold update_csv_status
  cases hidx : hdr.findIdx? (fun s => s == "status") with
  | none => rfl
  | some si =>
    simp only
    rw [map_id_of_mem]
    intro r hr
    cases r with
    | nil => rfl
    | cons c rest =>
      have hc : c ≠ code := by
        intro hcc
        exact h (c :: rest) hr (by rw [hcc]; rfl)
      simp [rewriteRow, hc]

/-- Witness for C7: updating a one-row ledger for an absent code `zz`. -/
theorem C7_absent_code_noop_witness :
    update_csv_status ⟨["project_id", "status"], [["p1", ""]]⟩ "zz" "downloaded" =
      ⟨["project_id", "status"], [["p1", ""]]⟩ :=
  C7_absent_code_noop ⟨["project_id", "status"], [["p1", ""]]⟩ "zz" "downloaded" (by decide)

/-- C8 counterexample: a status commit against a ledger whose header lacks a
`status` column does NOT abort the run — `update_csv_status` logs, returns
normally, and leaves the table unchanged (a silent skip), contradicting the
claim that every commit aborts the entire run in that situation. -/
theorem C8_counterexample :
    update_csv_status ⟨["project_id", "link"], [["p1", "x"]]⟩ "p1" "downloaded" =
      ⟨["project_id", "link"], [["p1", "x"]]⟩ := by
  decide

/-- C8 amended: a missing `status` column is fatal at the orchestrator startup
load (the run aborts before processing any row), while a standalone status
commit against such a header is a logged no-op returning the table unchanged
rather than an abort. -/
theorem C8_amended_fatality (L : Ledger)
    (h : L.header.findIdx? (fun s => s == "status") = none) :
    (∀ debug text_only : Bool, ∀ outcome : Nat → String,
        runOrchestrator debug text_only outcome L = none)
    ∧ (∀ code status : String, update_csv_status L code status = L) := by
  constructor
  · intro dbg t oc
    unfold runOrchestrator
    rw [h]
  · intro code st
    unfold update_csv_status
    rw [h]

/-- Witness for C8 amended: a statusless two-column ledger aborts the run. -/
theorem C8_amended_fatality_witness :
    runOrchestrator false false (fun _ => "downloaded")
      ⟨["project_id", "link"], [["p1", "x"]]⟩ = none :=
  (C8_amended_fatality ⟨["project_id", "link"], [["p1", "x"]]⟩ (by decide)).1 false false _

/-- A commit for a code different from the head of the row at index `j`
leaves that row unchanged. -/
theorem update_csv_status_frame (L : Ledger) (code status : String) (j : Nat)
    (r0 : List String) (hj : L.rows.get? j = some r0) (hne : r0.head? ≠ some code) :
    (update_csv_status L code status).rows.get? j = some r0 := by
  unfold update_csv_status
  cases hidx : L.header.findIdx? (fun s => s == "status") with
  | none => exact hj
  | some si =>
    simp only [List.get?_map, hj, Option.map_some']
    cases r0 with
    | nil => rfl
    | cons c rest =>
      have hc : c ≠ code := by
        intro hcc
        exact hne (by rw [hcc]; rfl)
      simp [rewriteRow, hc]

/-- Frame property of the orchestrator row loop: if every snapshot row that is
eligible (non-empty, status not in the skip list) has a first cell different
from the first cell of the ledger row at index `j`, then the row at index `j`
is untouched by the whole run. -/
theorem runRows_frame (debug text_only : Bool) (si : Nat) (outcome : Nat → String)
    (j : Nat) (r0 : List String) :
    ∀ (snap : List (List String)) (i : Nat) (L : Ledger),
      L.rows.get? j = some r0 →
      (∀ row ∈ snap, ∀ c, row.head? = some c →
        strToLower (row.getD si "") ∉ skip_statuses text_only → r0.head? ≠ some c) →
      (runRows debug text_only si outcome i snap L).rows.get? j = some r0 := by
  intro snap
  induction snap with
  | nil =>
    intro i L hj _
    simpa [runRows] using hj
  | cons row rest ih =>
    intro i L hj H
    have Hrest : ∀ row2 ∈ rest, ∀ c, row2.head? = some c →
        strToLower (row2.getD si "") ∉ skip_statuses text_only → r0.head? ≠ some c :=
      fun row2 h2 => H row2 (List.mem_cons_of_mem row h2)
    cases hrow : row.head? with
    | none =>
      simp only [runRows, hrow]
      exact ih (i + 1) L hj Hrest
    | some code =>
      by_cases hskip : strToLower (row.getD si "") ∈ skip_statuses text_only
      · simp only [runRows, hrow, if_pos hskip]
        exact ih (i + 1) L hj Hrest
      · have hne : r0.head? ≠ some code := H row (List.mem_cons_self row rest) code hrow hskip
        cases debug with
        | true =>
          simp only [runRows, hrow, if_neg hskip, if_pos rfl]
          exact hj
        | false =>
          simp only [runRows, hrow, if_neg hskip, if_neg Bool.false_ne_true]
          exact ih (i + 1) _ (update_csv_status_frame L code (outcome i) j r0 hj hne) Hrest

/-- C5 counterexample: the claim fails on a ledger with a duplicated project
id. In `dupIdLedger` row 1 has status `downloaded`, yet a normal-mode run
(no debug, no text-only) rewrites it to `error`, because the commit for the
eligible row 0 updates every row whose first cell is `p1`. -/
theorem C5_counterexample :
    runOrchestrator false false (fun _ => "error") dupIdLedger =
      some ⟨["project_id", "status"], [["p1", "error"], ["p1", "error"]]⟩
    ∧ dupIdLedger.rows.getD 1 [] = ["p1", "downloaded"]
    ∧ (["p1", "error"] : List String) ≠ ["p1", "downloaded"] := by
  refine ⟨by decide, by decide, by decide⟩

/-- C5 amended: provided any two ledger rows sharing a first cell are the
same row (in particular when project ids are pairwise distinct), a normal-mode
run (no debug, no text-only) leaves every row whose status is one of
`downloaded, error, incomplete, duplicate, delete` unchanged, and a text-only
(override) run leaves every row whose status is one of
`error, incomplete, duplicate, delete` unchanged — so override mode may only
revisit `downloaded` rows, never `delete` or `duplicate` rows. -/
theorem C5_amended_idempotence (L : Ledger) (outcome : Nat → String) (si : Nat)
    (hsi : L.header.findIdx? (fun s => s == "status") = some si)
    (huniq : ∀ a ∈ L.rows, ∀ b ∈ L.rows, a.head? = b.head? → a.head? ≠ none → a = b)
    (j : Nat) (r0 : List String) (hj : L.rows.get? j = some r0) :
    (strToLower (r0.getD si "") ∈ skip_statuses false →
      ∀ L2, runOrchestrator false false outcome L = some L2 →
        L2.rows.get? j = some r0)
    ∧ (strToLower (r0.getD si "") ∈ skip_statuses true →
      ∀ L2, runOrchestrator false true outcome L = some L2 →
        L2.rows.get? j = some r0) := by
  have hmem : r0 ∈ L.rows := List.get?_mem hj
  have key : ∀ t_only : Bool, strToLower (r0.getD si "") ∈ skip_statuses t_only →
      ∀ L2, runOrchestrator false t_only outcome L = some L2 →
        L2.rows.get? j = some r0 := by
    intro t hskip L2 hrun
    unfold runOrchestrator at hrun
    rw [hsi] at hrun
    have hrun2 : runRows false t si outcome 0 L.rows L = L2 := by
      exact Option.some.inj hrun
    rw [← hrun2]
    apply runRows_frame false t si outcome j r0 L.rows 0 L hj
    intro row hrowmem c hc hnotskip heq
    have hrc : row.head? = r0.head? := by rw [hc, heq]
    have hrr : row = r0 := by
      apply huniq row hrowmem r0 hmem hrc
      rw [hc]
      exact Option.some_ne_none c
    rw [hrr] at hnotskip
    exact hnotskip hskip
  exact ⟨key false, key true⟩

/-- Witness for C5 amended: a two-row ledger with distinct project ids; after
a full normal-mode run the `downloaded` row 0 is unchanged. -/
theorem C5_amended_idempotence_witness :
    (⟨["project_id", "status"], [["p1", "downloaded"], ["p2", "error"]]⟩ : Ledger).rows.get? 0 =
      some ["p1", "downloaded"] :=
  (C5_amended_idempotence ⟨["project_id", "status"], [["p1", "downloaded"], ["p2", ""]]⟩
      (fun _ => "error") 1 (by decide) (by decide) 0 ["p1", "downloaded"] (by decide)).1
    (by decide) ⟨["project_id", "status"], [["p1", "downloaded"], ["p2", "error"]]⟩ (by decide)

/-- C6: the commit write sequence is atomic with respect to the main ledger
file. At every observable point of `commit_states` the main CSV file holds
either the full old table or the full new table (the `update_csv_status`
result), never a truncated or mixed one; and when the temp-file write fails,
the final state has the original table untouched and the temp file removed. -/
theorem C6_commit_atomic (fs : LedgerFS) (code status : String) (wOk rOk : Bool)
    (junk : List (List String)) (hfs : fs.tempFile = none) :
    (∀ s ∈ commit_states fs code status wOk rOk junk,
        s.mainFile = fs.mainFile ∨ s.mainFile = update_csv_status fs.mainFile code status)
    ∧ (wOk = false →
        (commit_states fs code status wOk rOk junk).getLast? =
          some ⟨fs.mainFile, none⟩) := by
  obtain ⟨mainF, tempF⟩ := fs
  simp only at hfs
  subst hfs
  unfold commit_states
  cases hidx : mainF.header.findIdx? (fun s => s == "status") with
  | none =>
    constructor
    · intro s hs
      simp only [List.mem_singleton] at hs
      subst hs
      exact Or.inl rfl
    · intro _
      rfl
  | some si =>
    cases wOk with
    | true =>
      cases rOk with
      | true =>
        constructor
        · intro s hs
          simp only [if_true, List.mem_cons, List.not_mem_nil, or_false] at hs
          rcases hs with h | h | h
          · rw [h]; exact Or.inl rfl
          · rw [h]; exact Or.inl rfl
          · rw [h]; exact Or.inr rfl
        · intro hwf
          exact absurd hwf (by simp)
      | false =>
        constructor
        · intro s hs
          simp only [if_true, if_false, Bool.false_eq_true, List.mem_cons,
            List.not_mem_nil, or_false] at hs
          rcases hs with h | h | h
          · rw [h]; exact Or.inl rfl
          · rw [h]; exact Or.inl rfl
          · rw [h]; exact Or.inl rfl
        · intro hwf
          exact absurd hwf (by simp)
    | false =>
      constructor
      · intro s hs
        simp only [if_false, Bool.false_eq_true, List.mem_cons,
          List.not_mem_nil, or_false] at hs
        rcases hs with h | h | h
        · rw [h]; exact Or.inl rfl
        · rw [h]; exact Or.inl rfl
        · rw [h]; exact Or.inl rfl
      · intro _
        rfl

/-- Witness for C6: a failed temp write on a one-row ledger ends with the
original table intact and no temp file. -/
theorem C6_commit_atomic_witness :
    (commit_states ⟨⟨["project_id", "status"], [["p1", ""]]⟩, none⟩ "p1" "downloaded"
        false true []).getLast? =
      some ⟨⟨["project_id", "status"], [["p1", ""]]⟩, none⟩ :=
  (C6_commit_atomic ⟨⟨["project_id", "status"], [["p1", ""]]⟩, none⟩ "p1" "downloaded"
    false true [] rfl).2 rfl

/-- The success flag accumulated by the download loop: true exactly when it
was already true or some remaining item has a truthy link and downloads. -/
theorem downloadLoop_fst (env : ImageEnv) :
    ∀ (items : List GalleryItem) (i : Nat) (ov : Bool) (sc : Nat),
      (downloadLoop env i items ov sc).1 = (ov || anySuccess env i items) := by
  intro items
  induction items with
  | nil =>
    intro i ov sc
    simp [downloadLoop, anySuccess]
  | cons item rest ih =>
    intro i ov sc
    by_cases h1 : item.href.getD "" = ""
    · simp only [downloadLoop, anySuccess, if_pos h1, ih]
      simp [h1]
    · by_cases h2 : env.downloadOk i
      · simp only [downloadLoop, anySuccess, if_neg h1, if_pos h2, ih]
        simp [h1, h2]
      · simp only [downloadLoop, anySuccess, if_neg h1, if_neg h2, ih]
        simp [h1, h2]

/-- C3 counterexample: the claimed only-if fails. With an environment in which
the thumbnail scrape would succeed with one downloadable item, a project URL
whose path has no all-digit segment makes `process_project_images` return a
false flag without ever invoking thumbnail enumeration — so the flag is false
although the enumeration step did not fail transport-wise and the harvester
never obtained a non-downloadable item list. -/
theorem C3_counterexample :
    (process_project_images noIdEnv "/projects/art-center").overall = false
    ∧ ¬((process_project_images noIdEnv "/projects/art-center").scrapeInvoked = true
        ∧ noIdEnv.scrapeOk = false)
    ∧ ¬((process_project_images noIdEnv "/projects/art-center").scrapeInvoked = true
        ∧ noIdEnv.scrapeItems ≠ []
        ∧ anySuccess noIdEnv 0 noIdEnv.scrapeItems = false) := by
  refine ⟨by decide, by decide, by decide⟩

/-- C3 amended: the image-stage flag is true exactly when a project id could
be derived from the URL path, the image directory creation succeeded, the
thumbnail enumeration succeeded transport-wise, and either there were zero
gallery items or at least one item downloaded successfully. Negating: it is
false exactly when the id is underivable, the directory creation fails, the
enumeration fails transport-wise, or items existed but none downloaded. -/
theorem C3_amended_flag (env : ImageEnv) (urlPath : String) :
    (process_project_images env urlPath).overall = true ↔
      ((extract_project_id urlPath).isSome = true ∧ env.mkdirOk = true ∧
        env.scrapeOk = true ∧
        (env.scrapeItems = [] ∨ anySuccess env 0 env.scrapeItems = true)) := by
  unfold process_project_images
  cases hid : extract_project_id urlPath with
  | none => simp [hid]
  | some pid =>
    simp only [hid, Option.isSome_some, true_and]
    cases hmk : env.mkdirOk with
    | false => simp
    | true =>
      simp only [Bool.not_true, Bool.false_eq_true, if_false, true_and]
      cases hsc : env.scrapeOk with
      | false => simp
      | true =>
        simp only [Bool.not_true, Bool.false_eq_true, if_false, true_and]
        cases hemp : env.scrapeItems.isEmpty with
        | true =>
          have : env.scrapeItems = [] := List.isEmpty_iff.mp hemp
          simp [this]
        | false =>
          have hne : env.scrapeItems ≠ [] := by
            intro h
            rw [h] at hemp
            simp at hemp
          simp only [Bool.false_eq_true, if_false, downloadLoop_fst, Bool.false_or, hne,
            false_or]

/-- Witness for C3 amended: with a numeric path segment and a successful
environment the flag is true. -/
theorem C3_amended_flag_witness :
    (process_project_images noIdEnv "/1012558/x").overall = true :=
  (C3_amended_flag noIdEnv "/1012558/x").mpr (by decide)

/-- C9: classification priority. Any row whose link matches the case-
insensitive art pattern is marked `delete` by rule 1 and receives exactly one
`delete` assignment in total: rule 2 skips rows already marked `delete`, so
the row is never re-evaluated even when it also matches a research word. -/
theorem C9_priority (p : Project) (h : art_filter p.link = true) :
    classifyRow p = ({ p with status := "delete" }, 1) := by
  unfold classifyRow applyArtRule applyResearchRule
  rw [if_pos h]
  simp

/-- Witness for C9: a link matching both the art pattern and the whole word
`research` is marked `delete` exactly once. -/
theorem C9_priority_witness :
    art_filter "/777/x-art-museum-research-hall" = true
    ∧ research_filter "/777/x-art-museum-research-hall" = true
    ∧ classifyRow ⟨"777", "/777/x-art-museum-research-hall", "kw", ""⟩ =
        (⟨"777", "/777/x-art-museum-research-hall", "kw", "delete"⟩, 1) :=
  ⟨by decide, by decide,
    C9_priority ⟨"777", "/777/x-art-museum-research-hall", "kw", ""⟩ (by decide)⟩

/-- Rows built by a crawl worker all carry the empty status. -/
theorem crawl_task_rows_status (links : List String) (kw : String) :
    ∀ p ∈ crawl_task_rows links kw, p.status = "" := by
  intro p hp
  unfold crawl_task_rows at hp
  rw [List.mem_filterMap] at hp
  obtain ⟨l, _, hl⟩ := hp
  cases hfind : findIdMatch l.toList with
  | none => rw [hfind] at hl; exact absurd hl (by simp)
  | some pid =>
    rw [hfind] at hl
    simp only [Option.map_some'] at hl
    obtain rfl := Option.some.inj hl
    rfl

/-- The merged table of all worker batches only contains empty statuses. -/
theorem mergedRows_status (batches : List (List String × String)) :
    ∀ p ∈ mergedRows batches, p.status = "" := by
  intro p hp
  unfold mergedRows at hp
  rw [List.mem_flatten] at hp
  obtain ⟨l, hl, hpl⟩ := hp
  rw [List.mem_map] at hl
  obtain ⟨b, _, rfl⟩ := hl
  exact crawl_task_rows_status b.1 b.2 p hpl

/-- Deduplication only selects rows of the input table. -/
theorem dedupGo_subset : ∀ (seen : List String) (l : List Project) (p : Project),
    p ∈ dedupGo seen l → p ∈ l := by
  intro seen l
  induction l generalizing seen with
  | nil => intro p hp; exact absurd hp (by simp [dedupGo])
  | cons q rest ih =>
    intro p hp
    unfold dedupGo at hp
    by_cases hq : q.project_id ∈ seen
    · rw [if_pos hq] at hp
      exact List.mem_cons_of_mem q (ih seen p hp)
    · rw [if_neg hq] at hp
      rcases List.mem_cons.mp hp with h | h
      · rw [h]; exact List.mem_cons_self q rest
      · exact List.mem_cons_of_mem q (ih _ p h)

/-- The two classification passes leave a row status unchanged or set it to
`delete`. -/
theorem classifyPasses_status (p : Project) :
    ((applyResearchRule (applyArtRule p).1).1).status = p.status
    ∨ ((applyResearchRule (applyArtRule p).1).1).status = "delete" := by
  unfold applyArtRule applyResearchRule
  by_cases h1 : art_filter p.link
  · rw [if_pos h1]
    simp
  · rw [if_neg h1]
    by_cases h2 : research_filter p.link && p.status != "delete"
    · rw [if_pos h2]
      simp
    · rw [if_neg h2]
      simp

/-- C10: discovery-status invariant. Whatever result links the crawl workers
return, every row of the table produced by the Discovery Aggregator has
status `""` or `"delete"`; in particular `duplicate` is never assigned by
discovery (duplicates are removed by deduplication, not marked). -/
theorem C10_discovery_statuses (batches : List (List String × String))
    (out : List Project) (h : discoverMain (mergedRows batches) = some out) :
    ∀ q ∈ out, q.status = "" ∨ q.status = "delete" := by
  intro q hq
  unfold discoverMain at h
  by_cases hemp : (mergedRows batches).isEmpty
  · rw [if_pos hemp] at h
    exact absurd h (by simp)
  · rw [if_neg hemp] at h
    obtain rfl := Option.some.inj h
    unfold classifyTable at hq
    rw [List.mem_map] at hq
    obtain ⟨p1, hp1, rfl⟩ := hq
    rw [List.mem_map] at hp1
    obtain ⟨p0, hp0, rfl⟩ := hp1
    have hmem : p0 ∈ mergedRows batches := dedupGo_subset [] _ p0 hp0
    have hst : p0.status = "" := mergedRows_status batches p0 hmem
    rcases classifyPasses_status p0 with heq | heq
    · left; rw [heq, hst]
    · right; exact heq

/-- Witness for C10: a single worker batch with one valid link produces a
table whose only row has an allowed status. -/
theorem C10_discovery_statuses_witness :
    (Project.mk "123" "/projects/123/some-museum" "q=Technology" "").status = ""
    ∨ (Project.mk "123" "/projects/123/some-museum" "q=Technology" "").status = "delete" :=
  C10_discovery_statuses [(["/projects/123/some-museum"], "q=Technology")]
    [⟨"123", "/projects/123/some-museum", "q=Technology", ""⟩] (by decide)
    ⟨"123", "/projects/123/some-museum", "q=Technology", ""⟩ (by decide)
